import Mathlib

/-!
Verification of the `universal-mcp/sentry` client wrapper
(`src/universal_mcp_sentry/app.py`) against its specification.

The repository is a generated REST-client class `SentryApp`: every endpoint
method validates its required path parameters, builds a query-parameter and/or
request-body dictionary while dropping entries whose value is `None`, issues
exactly one HTTP request through a shared primitive, raises on non-2xx status
and otherwise returns the decoded JSON body.

The shallow embedding below mirrors that structure:
- `Value` stands for a Python/JSON value handed to a method;
- an argument of a method is an `Option Value` (`none` is Python `None`);
- each endpoint method is translated to a request-builder returning
  `Except SentryError Request` (the `raise ValueError` on a missing required
  path parameter becomes `Except.error (SentryError.missingParam ...)`);
- the shared tail (`self._get/_post/_put/_patch/_delete`,
  `response.raise_for_status()`, `return response.json()`) is the function
  `run`, parameterised by the HTTP collaborator `http : Request → Response`;
  the collaborator is external to the repository and is modelled by its
  documented contract (it returns a status and a decoded body).
`run` also records the trace of issued requests and the final application
state, so that call-count and frame properties can be stated.
-/

/-- A Python/JSON value as passed to or returned by an endpoint method. -/
inductive Value : Type where
  | null : Value
  | str : String → Value
  | int : Int → Value
  | bool : Bool → Value
  | arr : List Value → Value
  | obj : List (String × Value) → Value
deriving Repr

/-- Python `str()` as used by the f-string interpolation of path parameters. -/
def pyStr : Value → String
  | Value.null => "None"
  | Value.str s => s
  | Value.int n => toString n
  | Value.bool b => if b then "True" else "False"
  | Value.arr _ => "<list>"
  | Value.obj _ => "<dict>"

/-- The five HTTP verbs offered by the shared request primitive. -/
inductive HttpMethod : Type where
  | GET | POST | PUT | PATCH | DELETE
deriving Repr

/-- One outbound HTTP request: verb, full URL, query parameters and, for the
verbs that carry one, the JSON request body. -/
structure Request : Type where
  verb : HttpMethod
  url : String
  params : List (String × Value)
  data : Option (List (String × Value))
deriving Repr

/-- The two error kinds of the wrapper layer: a missing required parameter
(raised locally as `ValueError("Missing required parameter '<name>'")`, here
recorded by the parameter name), and the error raised by
`response.raise_for_status()` for a non-2xx status. -/
inductive SentryError : Type where
  | missingParam : String → SentryError
  | httpError : Nat → Value → SentryError
deriving Repr

/-- The response of the external HTTP collaborator: a status code and the
decoded JSON body. -/
structure Response : Type where
  status : Nat
  body : Value
deriving Repr

/-- The state of a `SentryApp` instance: the fields set by `__init__`
(`name`, the externally supplied integration credential, and `base_url`). -/
structure SentryApp : Type where
  name : String
  integration : Option String
  base_url : String
deriving Repr

/-- `SentryApp.__init__`: stores the name `sentry`, the integration handed in
by the caller, and the fixed base URL. -/
def SentryApp.construct (integration : Option String) : SentryApp :=
  { name := "sentry", integration := integration, base_url := "https://us.sentry.io" }

/-- The instance built by `mcp.py` (integration details abstracted). -/
def appDefault : SentryApp := SentryApp.construct (some ("SENTRY_API_KEY"))

/-- The dictionary comprehension `{k: v for k, v in ... if v is not None}`
shared by every endpoint method: keep exactly the entries whose value is set. -/
def dropNone (l : List (String × Option Value)) : List (String × Value) :=
  l.filterMap fun p => p.2.map fun v => (p.1, v)

/-- The keys of a built query-parameter or request-body mapping. -/
def keys (l : List (String × Value)) : List String :=
  l.map Prod.fst

/-- Outcome of running one endpoint method: the returned value or raised
error, the trace of issued HTTP requests, and the application state after the
call. -/
structure RunResult : Type where
  result : Except SentryError Value
  calls : List Request
  app : SentryApp
deriving Repr

/-- Success test of `response.raise_for_status()`: a 2xx status. -/
def is2xx (status : Nat) : Bool :=
  decide (200 ≤ status) && decide (status < 300)

/-- The shared tail of every endpoint method: if a required parameter was
missing, the error propagates and no request is issued; otherwise exactly one
request goes to the HTTP collaborator, `raise_for_status` raises on a non-2xx
status, and the decoded body is returned on success.  The method bodies never
assign to `self`, so the final state is the initial one. -/
def run (app : SentryApp) (http : Request → Response) :
    Except SentryError Request → RunResult
  | Except.error e => { result := Except.error e, calls := [], app := app }
  | Except.ok req =>
      let resp := http req
      { result :=
          if is2xx resp.status then Except.ok resp.body
          else Except.error (SentryError.httpError resp.status resp.body)
        , calls := [req]
        , app := app }

/-! ### Endpoint methods

Each definition below is the request-building part of the Python method of
the same name, transcribed from `app.py`: the `None` checks on required path
parameters, the URL f-string, the query-parameter and request-body
dictionaries with their `None` filter, and the verb of the single HTTP call.
-/

/-- `list_your_organizations` (`app.py` lines 10-30): GET
`/api/0/organizations/` with the four optional query parameters. -/
def list_your_organizations (app : SentryApp)
    (owner cursor query sortBy : Option Value) : Except SentryError Request :=
  Except.ok
    { verb := HttpMethod.GET
      , url := app.base_url ++ "/api/0/organizations/"
      , params := dropNone
          [("owner", owner), ("cursor", cursor), ("query", query), ("sortBy", sortBy)]
      , data := none }

/-- `retrieve_an_organization` (`app.py` lines 32-52): validate the path
parameter, GET `/api/0/organizations/{organization_id_or_slug}/` with the
optional `detailed` query parameter. -/
def retrieve_an_organization (app : SentryApp)
    (organization_id_or_slug detailed : Option Value) : Except SentryError Request :=
  match organization_id_or_slug with
  | none => Except.error (SentryError.missingParam ("organization_id_or_slug"))
  | some org =>
      Except.ok
        { verb := HttpMethod.GET
          , url := app.base_url ++ "/api/0/organizations/" ++ pyStr org ++ "/"
          , params := dropNone [("detailed", detailed)]
          , data := none }

/-- `delete_a_team` (`app.py` lines 4362-4384): validate the two path
parameters, DELETE `/api/0/teams/{organization_id_or_slug}/{team_id_or_slug}/`
with an empty query-parameter mapping and no body. -/
def delete_a_team (app : SentryApp)
    (organization_id_or_slug team_id_or_slug : Option Value) :
    Except SentryError Request :=
  match organization_id_or_slug with
  | none => Except.error (SentryError.missingParam ("organization_id_or_slug"))
  | some org =>
      match team_id_or_slug with
      | none => Except.error (SentryError.missingParam ("team_id_or_slug"))
      | some team =>
          Except.ok
            { verb := HttpMethod.DELETE
              , url := app.base_url ++ "/api/0/teams/" ++ pyStr org ++ "/"
                  ++ pyStr team ++ "/"
              , params := []
              , data := none }

/-- `create_a_metric_alert_rule_for_an_organization` (`app.py` lines
214-321): only the path parameter is checked for `None`; the seven required
body parameters (`name`, `aggregate`, `timeWindow`, `projects`, `query`,
`thresholdType`, `triggers`) and the nine optional ones go through the same
`None` filter; POST `/api/0/organizations/{organization_id_or_slug}/alert-rules/`. -/
def create_a_metric_alert_rule_for_an_organization (app : SentryApp)
    (organization_id_or_slug name aggregate timeWindow projects query
      thresholdType triggers environment dataset queryType eventTypes
      comparisonDelta resolveThreshold owner monitorType activationCondition :
      Option Value) : Except SentryError Request :=
  match organization_id_or_slug with
  | none => Except.error (SentryError.missingParam ("organization_id_or_slug"))
  | some org =>
      Except.ok
        { verb := HttpMethod.POST
          , url := app.base_url ++ "/api/0/organizations/" ++ pyStr org
              ++ "/alert-rules/"
          , params := []
          , data := some (dropNone
              [ ("name", name)
                , ("aggregate", aggregate)
                , ("timeWindow", timeWindow)
                , ("projects", projects)
                , ("query", query)
                , ("thresholdType", thresholdType)
                , ("triggers", triggers)
                , ("environment", environment)
                , ("dataset", dataset)
                , ("queryType", queryType)
                , ("eventTypes", eventTypes)
                , ("comparisonDelta", comparisonDelta)
                , ("resolveThreshold", resolveThreshold)
                , ("owner", owner)
                , ("monitorType", monitorType)
                , ("activationCondition", activationCondition) ]) }

/-- `create_an_external_team` (`app.py` lines 4386-4426): only the two path
parameters are checked for `None`; the required body parameters
(`external_name`, `provider`, `integration_id`) and the optional `external_id`
go through the `None` filter; POST
`/api/0/teams/{organization_id_or_slug}/{team_id_or_slug}/external-teams/`. -/
def create_an_external_team (app : SentryApp)
    (organization_id_or_slug team_id_or_slug external_name provider
      integration_id external_id : Option Value) : Except SentryError Request :=
  match organization_id_or_slug with
  | none => Except.error (SentryError.missingParam ("organization_id_or_slug"))
  | some org =>
      match team_id_or_slug with
      | none => Except.error (SentryError.missingParam ("team_id_or_slug"))
      | some team =>
          Except.ok
            { verb := HttpMethod.POST
              , url := app.base_url ++ "/api/0/teams/" ++ pyStr org ++ "/"
                  ++ pyStr team ++ "/external-teams/"
              , params := []
              , data := some (dropNone
                  [ ("external_name", external_name)
                    , ("provider", provider)
                    , ("integration_id", integration_id)
                    , ("external_id", external_id) ]) }

/-- `update_an_organization` (`app.py` lines 54-191): validate the path
parameter, send the thirty-two optional body fields through the `None`
filter, PUT `/api/0/organizations/{organization_id_or_slug}/` with an empty
query-parameter mapping. -/
def update_an_organization (app : SentryApp)
    (organization_id_or_slug slug name isEarlyAdopter hideAiFeatures
      codecovAccess defaultRole openMembership eventsMemberAdmin
      alertsMemberWrite attachmentsRole debugFilesRole avatarType avatar
      require2FA allowSharedIssues enhancedPrivacy scrapeJavaScript
      storeCrashReports allowJoinRequests dataScrubber dataScrubberDefaults
      sensitiveFields safeFields scrubIPAddresses relayPiiConfig trustedRelays
      githubPRBot githubOpenPRBot githubNudgeInvite issueAlertsThreadFlag
      metricAlertsThreadFlag cancelDeletion : Option Value) :
    Except SentryError Request :=
  match organization_id_or_slug with
  | none => Except.error (SentryError.missingParam ("organization_id_or_slug"))
  | some org =>
      Except.ok
        { verb := HttpMethod.PUT
          , url := app.base_url ++ "/api/0/organizations/" ++ pyStr org ++ "/"
          , params := []
          , data := some (dropNone
              [ ("slug", slug)
                , ("name", name)
                , ("isEarlyAdopter", isEarlyAdopter)
                , ("hideAiFeatures", hideAiFeatures)
                , ("codecovAccess", codecovAccess)
                , ("defaultRole", defaultRole)
                , ("openMembership", openMembership)
                , ("eventsMemberAdmin", eventsMemberAdmin)
                , ("alertsMemberWrite", alertsMemberWrite)
                , ("attachmentsRole", attachmentsRole)
                , ("debugFilesRole", debugFilesRole)
                , ("avatarType", avatarType)
                , ("avatar", avatar)
                , ("require2FA", require2FA)
                , ("allowSharedIssues", allowSharedIssues)
                , ("enhancedPrivacy", enhancedPrivacy)
                , ("scrapeJavaScript", scrapeJavaScript)
                , ("storeCrashReports", storeCrashReports)
                , ("allowJoinRequests", allowJoinRequests)
                , ("dataScrubber", dataScrubber)
                , ("dataScrubberDefaults", dataScrubberDefaults)
                , ("sensitiveFields", sensitiveFields)
                , ("safeFields", safeFields)
                , ("scrubIPAddresses", scrubIPAddresses)
                , ("relayPiiConfig", relayPiiConfig)
                , ("trustedRelays", trustedRelays)
                , ("githubPRBot", githubPRBot)
                , ("githubOpenPRBot", githubOpenPRBot)
                , ("githubNudgeInvite", githubNudgeInvite)
                , ("issueAlertsThreadFlag", issueAlertsThreadFlag)
                , ("metricAlertsThreadFlag", metricAlertsThreadFlag)
                , ("cancelDeletion", cancelDeletion) ]) }

/-- The names of the 175 endpoint wrapper methods defined on `SentryApp`, in definition order (every `def` of `app.py` other than `__init__` and `list_tools`). -/
def endpointMethods : List String :=
  [ "list_your_organizations"
    , "retrieve_an_organization"
    , "update_an_organization"
    , "list_an_organization_s_metric_alert_rules"
    , "create_a_metric_alert_rule_for_an_organization"
    , "retrieve_a_metric_alert_rule_for_an_organization"
    , "update_a_metric_alert_rule"
    , "delete_a_metric_alert_rule"
    , "retrieve_activations_for_a_metric_alert_rule"
    , "get_integration_provider_information"
    , "list_an_organization_s_custom_dashboards"
    , "create_a_new_dashboard_for_an_organization"
    , "retrieve_an_organization_s_custom_dashboard"
    , "edit_an_organization_s_custom_dashboard"
    , "delete_an_organization_s_custom_dashboard"
    , "list_an_organization_s_discover_saved_queries"
    , "create_a_new_saved_query"
    , "retrieve_an_organization_s_discover_saved_query"
    , "edit_an_organization_s_discover_saved_query"
    , "delete_an_organization_s_discover_saved_query"
    , "list_an_organization_s_environments"
    , "query_discover_events_in_table_format"
    , "create_an_external_user"
    , "update_an_external_user"
    , "delete_an_external_user"
    , "list_an_organization_s_available_integrations"
    , "retrieve_an_integration_for_an_organization"
    , "delete_an_integration_for_an_organization"
    , "list_an_organization_s_members"
    , "add_a_member_to_an_organization"
    , "retrieve_an_organization_member"
    , "update_an_organization_member_s_roles"
    , "delete_an_organization_member"
    , "add_an_organization_member_to_a_team"
    , "update_an_organization_member_s_team_role"
    , "delete_an_organization_member_from_a_team"
    , "retrieve_monitors_for_an_organization"
    , "create_a_monitor"
    , "retrieve_a_monitor"
    , "update_a_monitor"
    , "delete_a_monitor_or_monitor_environments"
    , "retrieve_check_ins_for_a_monitor"
    , "list_spike_protection_notifications"
    , "create_a_spike_protection_notification_action"
    , "retrieve_a_spike_protection_notification_action"
    , "update_a_spike_protection_notification_action"
    , "delete_a_spike_protection_notification_action"
    , "list_an_organization_s_projects"
    , "list_an_organization_s_trusted_relays"
    , "retrieve_statuses_of_release_thresholds_alpha"
    , "retrieve_an_organization_s_release"
    , "update_an_organization_s_release"
    , "delete_an_organization_s_release"
    , "retrieve_a_count_of_replays"
    , "list_an_organization_s_selectors"
    , "list_an_organization_s_replays"
    , "retrieve_a_replay_instance"
    , "list_an_organization_s_paginated_teams"
    , "provision_a_new_team"
    , "query_an_individual_team"
    , "update_a_team_s_attributes"
    , "delete_an_individual_team"
    , "list_an_organization_s_scim_members"
    , "provision_a_new_organization_member"
    , "query_an_individual_organization_member"
    , "update_an_organization_member_s_attributes"
    , "delete_an_organization_member_via_scim"
    , "retrieve_release_health_session_statistics"
    , "retrieve_an_organization_s_events_count_by_project"
    , "retrieve_event_counts_for_an_organization_v2"
    , "list_an_organization_s_teams"
    , "create_a_new_team"
    , "list_a_user_s_teams_for_an_organization"
    , "retrieve_a_project"
    , "update_a_project"
    , "delete_a_project"
    , "list_a_project_s_environments"
    , "retrieve_a_project_environment"
    , "update_a_project_environment"
    , "list_a_project_s_error_events"
    , "debug_issues_related_to_source_maps_for_a_given_event"
    , "list_a_project_s_data_filters"
    , "update_an_inbound_data_filter"
    , "list_a_project_s_client_keys"
    , "create_a_new_client_key"
    , "retrieve_a_client_key"
    , "update_a_client_key"
    , "delete_a_client_key"
    , "list_a_project_s_organization_members"
    , "retrieve_a_monitor_for_a_project"
    , "update_a_monitor_for_a_project"
    , "delete_a_monitor_or_monitor_environments_for_a_project"
    , "retrieve_check_ins_for_a_monitor_by_project"
    , "retrieve_ownership_configuration_for_a_project"
    , "update_ownership_configuration_for_a_project"
    , "delete_a_replay_instance"
    , "list_clicked_nodes"
    , "list_recording_segments"
    , "retrieve_a_recording_segment"
    , "list_users_who_have_viewed_a_replay"
    , "list_a_project_s_issue_alert_rules"
    , "create_an_issue_alert_rule_for_a_project"
    , "retrieve_an_issue_alert_rule_for_a_project"
    , "update_an_issue_alert_rule"
    , "delete_an_issue_alert_rule"
    , "retrieve_a_project_s_symbol_sources"
    , "add_a_symbol_source_to_a_project"
    , "update_a_project_s_symbol_source"
    , "delete_a_symbol_source_from_a_project"
    , "list_a_project_s_teams"
    , "add_a_team_to_a_project"
    , "delete_a_team_from_a_project"
    , "retrieve_a_team"
    , "update_a_team"
    , "delete_a_team"
    , "create_an_external_team"
    , "update_an_external_team"
    , "delete_an_external_team"
    , "list_a_team_s_members"
    , "list_a_team_s_projects"
    , "create_a_new_project"
    , "list_user_emails"
    , "add_a_secondary_email_address"
    , "update_a_primary_email_address"
    , "remove_an_email_address"
    , "retrieve_event_counts_for_a_team"
    , "resolve_an_event_id"
    , "list_an_organization_s_repositories"
    , "list_a_repository_s_commits"
    , "resolve_a_short_id"
    , "list_your_projects"
    , "list_a_project_s_debug_information_files"
    , "delete_a_specific_project_s_debug_information_file"
    , "list_a_project_s_users"
    , "list_a_tag_s_values"
    , "retrieve_event_counts_for_a_project"
    , "list_a_project_s_user_feedback"
    , "submit_user_feedback"
    , "list_a_project_s_service_hooks"
    , "register_a_new_service_hook"
    , "retrieve_a_service_hook"
    , "update_a_service_hook"
    , "remove_a_service_hook"
    , "retrieve_an_event_for_a_project"
    , "get_api_0_projects_by_organization_id_or_slug_by_project_id_or_slug_issues"
    , "bulk_mutate_a_list_of_issues"
    , "bulk_remove_a_list_of_issues"
    , "list_a_tag_s_values_related_to_an_issue"
    , "list_an_issue_s_hashes"
    , "retrieve_an_issue"
    , "update_an_issue"
    , "remove_an_issue"
    , "list_an_organization_s_releases"
    , "create_a_new_release_for_an_organization"
    , "list_an_organization_s_release_files"
    , "list_a_project_s_release_files"
    , "retrieve_an_organization_release_s_file"
    , "update_an_organization_release_file"
    , "delete_an_organization_release_s_file"
    , "retrieve_a_project_release_s_file"
    , "update_a_project_release_file"
    , "delete_a_project_release_s_file"
    , "list_an_organization_release_s_commits"
    , "list_a_project_release_s_commits"
    , "retrieve_files_changed_in_a_release_s_commits"
    , "list_a_release_s_deploys"
    , "create_a_new_deploy_for_an_organization"
    , "list_an_organization_s_integration_platform_installations"
    , "create_or_update_an_external_issue"
    , "delete_an_external_issue"
    , "enable_spike_protection"
    , "list_an_issue_s_events"
    , "retrieve_an_issue_event"
    , "retrieve_tag_details"
    , "list_a_tag_s_values_for_an_issue"
  ]

/-- The `list_tools` method (`app.py` lines 6148-6325): the flat list of operations exposed to the host dispatcher, transcribed entry by entry in its own order. -/
def list_tools : List String :=
  [ "list_your_organizations"
    , "retrieve_an_organization"
    , "update_an_organization"
    , "list_an_organization_s_metric_alert_rules"
    , "create_a_metric_alert_rule_for_an_organization"
    , "retrieve_a_metric_alert_rule_for_an_organization"
    , "update_a_metric_alert_rule"
    , "delete_a_metric_alert_rule"
    , "retrieve_activations_for_a_metric_alert_rule"
    , "get_integration_provider_information"
    , "list_an_organization_s_custom_dashboards"
    , "create_a_new_dashboard_for_an_organization"
    , "retrieve_an_organization_s_custom_dashboard"
    , "edit_an_organization_s_custom_dashboard"
    , "delete_an_organization_s_custom_dashboard"
    , "list_an_organization_s_discover_saved_queries"
    , "create_a_new_saved_query"
    , "retrieve_an_organization_s_discover_saved_query"
    , "edit_an_organization_s_discover_saved_query"
    , "delete_an_organization_s_discover_saved_query"
    , "list_an_organization_s_environments"
    , "query_discover_events_in_table_format"
    , "create_an_external_user"
    , "update_an_external_user"
    , "delete_an_external_user"
    , "list_an_organization_s_available_integrations"
    , "retrieve_an_integration_for_an_organization"
    , "delete_an_integration_for_an_organization"
    , "list_an_organization_s_members"
    , "add_a_member_to_an_organization"
    , "retrieve_an_organization_member"
    , "update_an_organization_member_s_roles"
    , "delete_an_organization_member"
    , "add_an_organization_member_to_a_team"
    , "update_an_organization_member_s_team_role"
    , "delete_an_organization_member_from_a_team"
    , "retrieve_monitors_for_an_organization"
    , "create_a_monitor"
    , "retrieve_a_monitor"
    , "update_a_monitor"
    , "delete_a_monitor_or_monitor_environments"
    , "retrieve_check_ins_for_a_monitor"
    , "list_spike_protection_notifications"
    , "create_a_spike_protection_notification_action"
    , "retrieve_a_spike_protection_notification_action"
    , "update_a_spike_protection_notification_action"
    , "delete_a_spike_protection_notification_action"
    , "list_an_organization_s_projects"
    , "list_an_organization_s_trusted_relays"
    , "retrieve_statuses_of_release_thresholds_alpha"
    , "retrieve_an_organization_s_release"
    , "update_an_organization_s_release"
    , "delete_an_organization_s_release"
    , "retrieve_a_count_of_replays"
    , "list_an_organization_s_selectors"
    , "list_an_organization_s_replays"
    , "retrieve_a_replay_instance"
    , "list_an_organization_s_paginated_teams"
    , "provision_a_new_team"
    , "query_an_individual_team"
    , "update_a_team_s_attributes"
    , "delete_an_individual_team"
    , "list_an_organization_s_scim_members"
    , "provision_a_new_organization_member"
    , "query_an_individual_organization_member"
    , "update_an_organization_member_s_attributes"
    , "delete_an_organization_member_via_scim"
    , "retrieve_release_health_session_statistics"
    , "retrieve_an_organization_s_events_count_by_project"
    , "retrieve_event_counts_for_an_organization_v2"
    , "list_an_organization_s_teams"
    , "create_a_new_team"
    , "list_a_user_s_teams_for_an_organization"
    , "retrieve_a_project"
    , "update_a_project"
    , "delete_a_project"
    , "list_a_project_s_environments"
    , "retrieve_a_project_environment"
    , "update_a_project_environment"
    , "list_a_project_s_error_events"
    , "debug_issues_related_to_source_maps_for_a_given_event"
    , "list_a_project_s_data_filters"
    , "update_an_inbound_data_filter"
    , "list_a_project_s_client_keys"
    , "create_a_new_client_key"
    , "retrieve_a_client_key"
    , "update_a_client_key"
    , "delete_a_client_key"
    , "list_a_project_s_organization_members"
    , "retrieve_a_monitor_for_a_project"
    , "update_a_monitor_for_a_project"
    , "delete_a_monitor_or_monitor_environments_for_a_project"
    , "retrieve_check_ins_for_a_monitor_by_project"
    , "retrieve_ownership_configuration_for_a_project"
    , "update_ownership_configuration_for_a_project"
    , "delete_a_replay_instance"
    , "list_clicked_nodes"
    , "list_recording_segments"
    , "retrieve_a_recording_segment"
    , "list_users_who_have_viewed_a_replay"
    , "list_a_project_s_issue_alert_rules"
    , "create_an_issue_alert_rule_for_a_project"
    , "retrieve_an_issue_alert_rule_for_a_project"
    , "update_an_issue_alert_rule"
    , "delete_an_issue_alert_rule"
    , "retrieve_a_project_s_symbol_sources"
    , "add_a_symbol_source_to_a_project"
    , "update_a_project_s_symbol_source"
    , "delete_a_symbol_source_from_a_project"
    , "list_a_project_s_teams"
    , "add_a_team_to_a_project"
    , "delete_a_team_from_a_project"
    , "retrieve_a_team"
    , "update_a_team"
    , "delete_a_team"
    , "create_an_external_team"
    , "update_an_external_team"
    , "delete_an_external_team"
    , "list_a_team_s_members"
    , "list_a_team_s_projects"
    , "create_a_new_project"
    , "list_user_emails"
    , "add_a_secondary_email_address"
    , "update_a_primary_email_address"
    , "remove_an_email_address"
    , "retrieve_event_counts_for_a_team"
    , "resolve_an_event_id"
    , "list_an_organization_s_repositories"
    , "list_a_repository_s_commits"
    , "resolve_a_short_id"
    , "list_your_projects"
    , "list_a_project_s_debug_information_files"
    , "delete_a_specific_project_s_debug_information_file"
    , "list_a_project_s_users"
    , "list_a_tag_s_values"
    , "retrieve_event_counts_for_a_project"
    , "list_a_project_s_user_feedback"
    , "submit_user_feedback"
    , "list_a_project_s_service_hooks"
    , "register_a_new_service_hook"
    , "retrieve_a_service_hook"
    , "update_a_service_hook"
    , "remove_a_service_hook"
    , "retrieve_an_event_for_a_project"
    , "get_api_0_projects_by_organization_id_or_slug_by_project_id_or_slug_issues"
    , "bulk_mutate_a_list_of_issues"
    , "bulk_remove_a_list_of_issues"
    , "list_a_tag_s_values_related_to_an_issue"
    , "list_an_issue_s_hashes"
    , "retrieve_an_issue"
    , "update_an_issue"
    , "remove_an_issue"
    , "list_an_organization_s_releases"
    , "create_a_new_release_for_an_organization"
    , "list_an_organization_s_release_files"
    , "list_a_project_s_release_files"
    , "retrieve_an_organization_release_s_file"
    , "update_an_organization_release_file"
    , "delete_an_organization_release_s_file"
    , "retrieve_a_project_release_s_file"
    , "update_a_project_release_file"
    , "delete_a_project_release_s_file"
    , "list_an_organization_release_s_commits"
    , "list_a_project_release_s_commits"
    , "retrieve_files_changed_in_a_release_s_commits"
    , "list_a_release_s_deploys"
    , "create_a_new_deploy_for_an_organization"
    , "list_an_organization_s_integration_platform_installations"
    , "create_or_update_an_external_issue"
    , "delete_an_external_issue"
    , "enable_spike_protection"
    , "list_an_issue_s_events"
    , "retrieve_an_issue_event"
    , "retrieve_tag_details"
    , "list_a_tag_s_values_for_an_issue"
  ]

/-! ### General lemmas about the shared helpers -/

/-- A key occurs in a filtered mapping exactly when the argument list carries
it with a set value. -/
theorem mem_keys_dropNone {l : List (String × Option Value)} {k : String} :
    k ∈ keys (dropNone l) ↔ ∃ v, (k, some v) ∈ l := by
  constructor
  · intro h
    simp only [keys, List.mem_map] at h
    obtain ⟨b, hb, hbk⟩ := h
    simp only [dropNone, List.mem_filterMap] at hb
    obtain ⟨a, ha, hfa⟩ := hb
    obtain ⟨ka, ov⟩ := a
    cases ov with
    | none => simp at hfa
    | some v =>
        simp only [Option.map_some'] at hfa
        injection hfa with hfa
        subst hfa
        simp only at hbk
        subst hbk
        exact ⟨v, ha⟩
  · rintro ⟨v, hv⟩
    simp only [keys, dropNone, List.mem_map, List.mem_filterMap]
    exact ⟨(k, v), ⟨(k, some v), hv, rfl⟩, rfl⟩

/-! ### Claims -/

/-- Claim C3: for every operation, once the request is built the result is
decided purely by the collaborator status: a 2xx response makes the operation
return the decoded body unchanged, a non-2xx response makes it raise the
remote-call failure carrying the status and body unmodified. -/
theorem c3_status_dichotomy (app : SentryApp) (http : Request → Response)
    (build : Except SentryError Request) (req : Request)
    (h : build = Except.ok req) :
    (is2xx (http req).status = true →
        (run app http build).result = Except.ok (http req).body)
  ∧ (is2xx (http req).status = false →
        (run app http build).result
          = Except.error (SentryError.httpError (http req).status (http req).body)) := by
  subst h
  constructor <;> intro h2 <;> simp [run, h2]

/-- Witness for C3: on `retrieve_an_organization` for `acme`, a simulated 404
response with a null body surfaces as the remote-call failure. -/
theorem c3_witness :
    (run appDefault (fun _ => { status := 404, body := Value.null })
        (retrieve_an_organization appDefault (some (Value.str ("acme"))) none)).result
      = Except.error (SentryError.httpError 404 Value.null) := by
  exact (c3_status_dichotomy appDefault
    (fun _ => { status := 404, body := Value.null })
    (retrieve_an_organization appDefault (some (Value.str ("acme"))) none)
    _ rfl).2 rfl

/-- Claim C4: the constructed URL is the base URL followed by the documented
path template with the path parameters interpolated; for
`retrieve_an_organization` with identifier `acme` on the constructed instance
the URL is exactly `https://us.sentry.io/api/0/organizations/acme/`. -/
theorem c4_url_interpolation :
    (∀ app org detailed,
        (retrieve_an_organization app (some org) detailed).map Request.url
          = Except.ok (app.base_url ++ "/api/0/organizations/" ++ pyStr org ++ "/"))
  ∧ (∀ app org team,
        (delete_a_team app (some org) (some team)).map Request.url
          = Except.ok (app.base_url ++ "/api/0/teams/" ++ pyStr org ++ "/"
              ++ pyStr team ++ "/"))
  ∧ (∀ detailed,
        (retrieve_an_organization appDefault (some (Value.str ("acme"))) detailed).map
            Request.url
          = Except.ok ("https://us.sentry.io/api/0/organizations/acme/")) :=
  ⟨fun _ _ _ => rfl, fun _ _ _ => rfl, fun _ => rfl⟩

/-- Claim C8: each operation invokes the verb matching its documented kind:
`retrieve_an_organization` GET, `create_a_metric_alert_rule_for_an_organization`
POST, `update_an_organization` PUT, `delete_a_team` DELETE. -/
theorem c8_verbs :
    (∀ app org detailed,
        (retrieve_an_organization app (some org) detailed).map Request.verb
          = Except.ok HttpMethod.GET)
  ∧ (∀ app org name aggregate timeWindow projects query thresholdType triggers
        environment dataset queryType eventTypes comparisonDelta
        resolveThreshold owner monitorType activationCondition,
        (create_a_metric_alert_rule_for_an_organization app (some org) name
            aggregate timeWindow projects query thresholdType triggers
            environment dataset queryType eventTypes comparisonDelta
            resolveThreshold owner monitorType activationCondition).map Request.verb
          = Except.ok HttpMethod.POST)
  ∧ (∀ app org slug name isEarlyAdopter hideAiFeatures codecovAccess
        defaultRole openMembership eventsMemberAdmin alertsMemberWrite
        attachmentsRole debugFilesRole avatarType avatar require2FA
        allowSharedIssues enhancedPrivacy scrapeJavaScript storeCrashReports
        allowJoinRequests dataScrubber dataScrubberDefaults sensitiveFields
        safeFields scrubIPAddresses relayPiiConfig trustedRelays githubPRBot
        githubOpenPRBot githubNudgeInvite issueAlertsThreadFlag
        metricAlertsThreadFlag cancelDeletion,
        (update_an_organization app (some org) slug name isEarlyAdopter
            hideAiFeatures codecovAccess defaultRole openMembership
            eventsMemberAdmin alertsMemberWrite attachmentsRole debugFilesRole
            avatarType avatar require2FA allowSharedIssues enhancedPrivacy
            scrapeJavaScript storeCrashReports allowJoinRequests dataScrubber
            dataScrubberDefaults sensitiveFields safeFields scrubIPAddresses
            relayPiiConfig trustedRelays githubPRBot githubOpenPRBot
            githubNudgeInvite issueAlertsThreadFlag metricAlertsThreadFlag
            cancelDeletion).map Request.verb
          = Except.ok HttpMethod.PUT)
  ∧ (∀ app org team,
        (delete_a_team app (some org) (some team)).map Request.verb
          = Except.ok HttpMethod.DELETE) :=
  ⟨fun _ _ _ => rfl,
    fun _ _ _ _ _ _ _ _ _ _ _ _ _ _ _ _ _ _ => rfl,
    fun _ _ _ _ _ _ _ _ _ _ _ _ _ _ _ _ _ _ _ _ _ _ _ _ _ _ _ _ _ _ _ _ _ _ => rfl,
    fun _ _ _ => rfl⟩

/-- Claim C6: every invocation that reaches the network issues exactly one
HTTP request (whatever status the collaborator returns), and the application
state — all fields of `SentryApp`, `base_url` included — is unchanged by any
operation, on the success path and on the error paths alike. -/
theorem c6_single_call_no_mutation :
    (∀ app http build, (run app http build).app = app)
  ∧ (∀ app http req, (run app http (Except.ok req)).calls = [req])
  ∧ (∀ app http owner cursor query sortBy,
        (run app http (list_your_organizations app owner cursor query
            sortBy)).calls.length = 1)
  ∧ (∀ app http org team,
        (run app http (delete_a_team app (some org)
            (some team))).calls.length = 1) := by
  refine ⟨?_, ?_, ?_, ?_⟩
  · intro app http build
    cases build <;> rfl
  · intro _ _ _
    rfl
  · intro _ _ _ _ _ _
    rfl
  · intro _ _ _ _
    rfl

/-- Claim C1, counterexample: `create_a_metric_alert_rule_for_an_organization`
called with `name = None` (and the other required body parameters `None` as
well) raises no missing-parameter error: the request is built, one network
call is issued, and a 2xx collaborator response is returned as the result —
the claim demands a missing-parameter error naming `name` and zero calls. -/
theorem c1_counterexample :
    (run appDefault (fun _ => { status := 201, body := Value.null })
        (create_a_metric_alert_rule_for_an_organization appDefault
          (some (Value.str ("acme"))) none none none none none none none none
          none none none none none none none none)).calls.length = 1
  ∧ (run appDefault (fun _ => { status := 201, body := Value.null })
        (create_a_metric_alert_rule_for_an_organization appDefault
          (some (Value.str ("acme"))) none none none none none none none none
          none none none none none none none none)).result
      = Except.ok Value.null :=
  ⟨rfl, rfl⟩

/-- Claim C1 as amended: only required path parameters are validated locally.
Calling an operation with a required path parameter set to `None` raises the
missing-parameter error naming that field with zero network calls issued
(shown for `retrieve_an_organization` and
`create_a_metric_alert_rule_for_an_organization`); a required body parameter
such as `name` set to `None` raises no local error and the single network
call still proceeds. -/
theorem c1_path_param_validation :
    (∀ app http detailed,
        run app http (retrieve_an_organization app none detailed)
          = { result := Except.error
                (SentryError.missingParam ("organization_id_or_slug"))
              , calls := [], app := app })
  ∧ (∀ app http name aggregate timeWindow projects query thresholdType
        triggers environment dataset queryType eventTypes comparisonDelta
        resolveThreshold owner monitorType activationCondition,
        run app http (create_a_metric_alert_rule_for_an_organization app none
            name aggregate timeWindow projects query thresholdType triggers
            environment dataset queryType eventTypes comparisonDelta
            resolveThreshold owner monitorType activationCondition)
          = { result := Except.error
                (SentryError.missingParam ("organization_id_or_slug"))
              , calls := [], app := app })
  ∧ (∀ app http org aggregate timeWindow projects query thresholdType
        triggers environment dataset queryType eventTypes comparisonDelta
        resolveThreshold owner monitorType activationCondition,
        (run app http (create_a_metric_alert_rule_for_an_organization app
            (some org) none aggregate timeWindow projects query thresholdType
            triggers environment dataset queryType eventTypes comparisonDelta
            resolveThreshold owner monitorType
            activationCondition)).calls.length = 1) :=
  ⟨fun _ _ _ => rfl,
    fun _ _ _ _ _ _ _ _ _ _ _ _ _ _ _ _ _ _ => rfl,
    fun _ _ _ _ _ _ _ _ _ _ _ _ _ _ _ _ _ _ => rfl⟩

/-- Claim C9: required non-path (body) parameters are not validated: passing
them as `None` raises no local error, they are silently dropped from the
request body by the `None` filter, and the single network call still
proceeds (shown for `create_an_external_team` and
`create_a_metric_alert_rule_for_an_organization`). -/
theorem c9_required_body_params_dropped :
    (∀ app http org team external_id,
        (run app http (create_an_external_team app (some org) (some team)
            none none none external_id)).calls.length = 1)
  ∧ (∀ app org team external_id,
        (create_an_external_team app (some org) (some team) none none none
            external_id).map Request.data
          = Except.ok (some (dropNone [(("external_id"), external_id)])))
  ∧ (∀ app http org,
        (run app http (create_a_metric_alert_rule_for_an_organization app
            (some org) none none none none none none none none none none none
            none none none none none)).calls.length = 1)
  ∧ (∀ app org,
        (create_a_metric_alert_rule_for_an_organization app (some org) none
            none none none none none none none none none none none none none
            none none).map Request.data = Except.ok (some [])) :=
  ⟨fun _ _ _ _ _ => rfl, fun _ _ _ _ => rfl, fun _ _ _ => rfl, fun _ _ => rfl⟩

/-- The DELETE request that `delete_a_team` builds for `acme`/`warriors` on
the constructed instance. -/
def deleteAcmeWarriorsReq : Request :=
  { verb := HttpMethod.DELETE
    , url := "https://us.sentry.io/api/0/teams/acme/warriors/"
    , params := []
    , data := none }

/-- Claim C5: `delete_a_team` for `acme`/`warriors` issues exactly one DELETE
request to `https://us.sentry.io/api/0/teams/acme/warriors/` with an empty
query-parameter mapping and no body, and a 2xx collaborator response makes it
return the decoded (empty) body. -/
theorem c5_delete_a_team_scenario (http : Request → Response) :
    ((run appDefault http (delete_a_team appDefault (some (Value.str ("acme")))
        (some (Value.str ("warriors"))))).calls = [deleteAcmeWarriorsReq])
  ∧ (is2xx (http deleteAcmeWarriorsReq).status = true →
      (run appDefault http (delete_a_team appDefault (some (Value.str ("acme")))
          (some (Value.str ("warriors"))))).result
        = Except.ok (http deleteAcmeWarriorsReq).body) := by
  have hbuild : delete_a_team appDefault (some (Value.str ("acme")))
      (some (Value.str ("warriors"))) = Except.ok deleteAcmeWarriorsReq := rfl
  constructor
  · rw [hbuild]
    rfl
  · intro h
    rw [hbuild]
    simp [run, h]

/-- Witness for C5: with a collaborator answering 204 and a null decoded
body, the single DELETE request is issued and the null body is returned. -/
theorem c5_witness :
    ((run appDefault (fun _ => { status := 204, body := Value.null })
        (delete_a_team appDefault (some (Value.str ("acme")))
          (some (Value.str ("warriors"))))).calls = [deleteAcmeWarriorsReq])
  ∧ (run appDefault (fun _ => { status := 204, body := Value.null })
        (delete_a_team appDefault (some (Value.str ("acme")))
          (some (Value.str ("warriors"))))).result = Except.ok Value.null :=
  ⟨(c5_delete_a_team_scenario _).1, (c5_delete_a_team_scenario _).2 rfl⟩

set_option maxRecDepth 10000 in
/-- Claim C7: `list_tools` returns the flat collection of endpoint
operations: it lists exactly the endpoint wrapper methods defined on
`SentryApp`, each exactly once. -/
theorem c7_list_tools_complete :
    list_tools = endpointMethods ∧ List.Nodup list_tools := by
  refine ⟨rfl, ?_⟩
  decide

/-- Claim C2: an optional parameter left unset (`None`) is entirely absent as
a key from the constructed query-parameter mapping and from the constructed
request-body mapping, shown for the `cursor` query parameter of
`list_your_organizations` and the `name` body field of
`update_an_organization`, with every other argument arbitrary. -/
theorem c2_unset_optionals_absent :
    (∀ app owner query sortBy req,
        list_your_organizations app owner none query sortBy = Except.ok req →
        ("cursor") ∉ keys req.params)
  ∧ (∀ app org slug isEarlyAdopter hideAiFeatures codecovAccess defaultRole
        openMembership eventsMemberAdmin alertsMemberWrite attachmentsRole
        debugFilesRole avatarType avatar require2FA allowSharedIssues
        enhancedPrivacy scrapeJavaScript storeCrashReports allowJoinRequests
        dataScrubber dataScrubberDefaults sensitiveFields safeFields
        scrubIPAddresses relayPiiConfig trustedRelays githubPRBot
        githubOpenPRBot githubNudgeInvite issueAlertsThreadFlag
        metricAlertsThreadFlag cancelDeletion req body,
        update_an_organization app (some org) slug none isEarlyAdopter
            hideAiFeatures codecovAccess defaultRole openMembership
            eventsMemberAdmin alertsMemberWrite attachmentsRole debugFilesRole
            avatarType avatar require2FA allowSharedIssues enhancedPrivacy
            scrapeJavaScript storeCrashReports allowJoinRequests dataScrubber
            dataScrubberDefaults sensitiveFields safeFields scrubIPAddresses
            relayPiiConfig trustedRelays githubPRBot githubOpenPRBot
            githubNudgeInvite issueAlertsThreadFlag metricAlertsThreadFlag
            cancelDeletion = Except.ok req →
        req.data = some body →
        ("name") ∉ keys body) := by
  constructor
  · intro app owner query sortBy req h
    injection h with h
    subst h
    rw [mem_keys_dropNone]
    rintro ⟨v, hv⟩
    simp at hv
  · intro app org slug isEarlyAdopter hideAiFeatures codecovAccess defaultRole
      openMembership eventsMemberAdmin alertsMemberWrite attachmentsRole
      debugFilesRole avatarType avatar require2FA allowSharedIssues
      enhancedPrivacy scrapeJavaScript storeCrashReports allowJoinRequests
      dataScrubber dataScrubberDefaults sensitiveFields safeFields
      scrubIPAddresses relayPiiConfig trustedRelays githubPRBot
      githubOpenPRBot githubNudgeInvite issueAlertsThreadFlag
      metricAlertsThreadFlag cancelDeletion req body h hdata
    injection h with h
    subst h
    simp only at hdata
    injection hdata with hdata
    subst hdata
    rw [mem_keys_dropNone]
    rintro ⟨v, hv⟩
    simp at hv

/-- Witness for C2: `list_your_organizations` with `owner` set and the other
three optional parameters unset builds a query mapping without `cursor`. -/
theorem c2_witness :
    ("cursor") ∉ keys (Request.params
      { verb := HttpMethod.GET
        , url := "https://us.sentry.io/api/0/organizations/"
        , params := [(("owner"), Value.bool true)]
        , data := none }) :=
  (c2_unset_optionals_absent).1 appDefault (some (Value.bool true)) none none
    _ rfl

/-- String concatenation associates; used to read the constructed URLs as
the base URL followed by a path starting with `/api/0/`. -/
theorem string_append_assoc (a b c : String) : a ++ b ++ c = a ++ (b ++ c) := by
  apply String.ext
  simp [String.data_append, List.append_assoc]

/-- Claim C10: `base_url` is `https://us.sentry.io` from construction on, no
operation changes it, and every constructed URL is `base_url` followed by a
path beginning with `/api/0/` (shown for `retrieve_an_organization` and
`delete_a_team`, the cited operations). -/
theorem c10_base_url_invariant :
    (∀ integ, (SentryApp.construct integ).base_url = "https://us.sentry.io")
  ∧ (∀ app http build, (run app http build).app.base_url = app.base_url)
  ∧ (∀ app org detailed,
        (retrieve_an_organization app (some org) detailed).map Request.url
          = Except.ok (app.base_url ++ ("/api/0/organizations/"
              ++ (pyStr org ++ "/"))))
  ∧ (∀ app org team,
        (delete_a_team app (some org) (some team)).map Request.url
          = Except.ok (app.base_url ++ ("/api/0/teams/" ++ (pyStr org
              ++ ("/" ++ (pyStr team ++ "/")))))) := by
  refine ⟨fun _ => rfl, ?_, ?_, ?_⟩
  · intro app http build
    cases build <;> rfl
  · intro app org detailed
    show Except.ok (app.base_url ++ "/api/0/organizations/" ++ pyStr org ++ "/")
        = _
    simp only [string_append_assoc]
  · intro app org team
    show Except.ok (app.base_url ++ "/api/0/teams/" ++ pyStr org ++ "/"
        ++ pyStr team ++ "/") = _
    simp only [string_append_assoc]
